import Mathlib

/-!
Shallow embedding of the aws-rfdk NFS/Lustre mounting constructs:
`MountableNfs` and `MountableFsxLustre` (mount-script orchestration and
per-stack asset deduplication), the `NfsInstance` server orchestrator
(subnet selection, volume creation, `share`), the `mountNfs.sh` client
bootstrap script's retry loop, and the generated bash helper
`is_kernel_version_lower` used by the Lustre client installer.
Definitions mirror the TypeScript and bash sources; theorems settle the
specification claims about them.
-/

set_option maxRecDepth 4096

/-! ## Basic character-list utilities (used by the path and version models) -/

/-- Split a character list on a single separator character.  Mirrors the
segment decomposition that both V8 string splitting and bash field
splitting perform: consecutive separators yield empty segments. -/
def splitOnChar (sep : Char) : List Char → List (List Char)
  | [] => [[]]
  | c :: cs =>
    match splitOnChar sep cs with
    | [] => [[]]
    | s :: rest => if c = sep then [] :: s :: rest else (c :: s) :: rest

/-- Split a character list on any of several separator characters (bash
field splitting with a multi-character non-whitespace IFS). -/
def splitOnChars (seps : List Char) : List Char → List (List Char)
  | [] => [[]]
  | c :: cs =>
    match splitOnChars seps cs with
    | [] => [[]]
    | s :: rest => if c ∈ seps then [] :: s :: rest else (c :: s) :: rest

/-- `^[0-9]+$`: the character list is nonempty and all digits. -/
def allDigits : List Char → Bool
  | [] => false
  | cs => cs.all Char.isDigit

/-- Decimal value of a digit list (the numeric value bash compares with
`-lt` for a string matching `^[0-9]+$`). -/
def digitsToNat (cs : List Char) : Nat :=
  cs.foldl (fun acc c => acc * 10 + (c.toNat - 48)) 0

/-! ## Mount permissions (`MountPermissionsHelper`)

The file `mount-permissions-helper.ts` is imported by both mountable
classes but is not among the provided sources. -/

/-- Permissions with which to mount a filesystem (`MountPermissions`). -/
inductive MountPermissions where
  | READONLY
  | READWRITE
deriving DecidableEq, Repr

/-- Modelled from the spec: `MountPermissionsHelper.toLinuxMountOption`,
whose source file is not provided.  The spec's Mount-Option Translator
contract is: ReadWrite maps to the literal string "rw" and ReadOnly to
"r"; pure and total, no other output. -/
def MountPermissionsHelper.toLinuxMountOption : MountPermissions → String
  | MountPermissions.READONLY => "r"
  | MountPermissions.READWRITE => "rw"

/-! ## Mount-option string construction

Mirrors `mountable-nfs.ts` lines 84-88 and the identical logic in
`MountableFsxLustre` (part_001 lines 138-142):
`[flag].push(...extra); join(',')`. -/

/-- The rendered mount-options token: the derived permission flag first,
then the caller's `extraMountOptions` (when supplied), comma-joined. -/
def buildMountOptions (permissions : MountPermissions)
    (extraMountOptions : Option (List String)) : String :=
  let mountOptions := [MountPermissionsHelper.toLinuxMountOption permissions]
  let mountOptions :=
    match extraMountOptions with
    | some extra => mountOptions ++ extra
    | none => mountOptions
  String.intercalate "," mountOptions

/-- Specification-side rendering: the flag first, then each caller option
in its given order, each preceded by a comma; no reordering, no
deduplication. -/
def renderOptionsSpec (flag : String) : List String → String
  | [] => flag
  | x :: xs => flag ++ "," ++ renderOptionsSpec x xs

/-! ## Node `path.posix.normalize`

Both `MountableNfs.mountToLinuxInstance` (line 83) and
`MountableFsxLustre.mountToLinuxInstance` (part_001 line 137) compute
`mountDir = path.posix.normalize(mount.location)`.  The embedding below
follows Node's posix `normalize`: record whether the path is absolute and
whether it has a trailing separator, resolve the `/`-delimited segments
(dropping empty and `.` segments, resolving `..`), re-join, then restore
the leading separator and a single trailing separator. -/

/-- Effect of a `..` segment on the already-resolved segments (held in
reverse): pop the previous segment; but keep stacking `..` above the
root of a relative path (`allowAboveRoot`), and drop `..` at the root of
an absolute path. -/
def popDotDot (allowAboveRoot : Bool) : List (List Char) → List (List Char)
  | [] => if allowAboveRoot then [['.', '.']] else []
  | top :: tl => if top = ['.', '.'] then ['.', '.'] :: top :: tl else tl

/-- Node `normalizeString` segment resolution.  Empty and `.` segments
are dropped; `..` acts through `popDotDot`; other segments are kept.
`acc` holds already-resolved segments in reverse. -/
def normSegsAux (allowAboveRoot : Bool) :
    List (List Char) → List (List Char) → List (List Char)
  | acc, [] => acc.reverse
  | acc, seg :: rest =>
    if seg = [] ∨ seg = ['.'] then
      normSegsAux allowAboveRoot acc rest
    else if seg = ['.', '.'] then
      normSegsAux allowAboveRoot (popDotDot allowAboveRoot acc) rest
    else normSegsAux allowAboveRoot (seg :: acc) rest

/-- Reassembly step of Node `normalize`: restore the leading separator
for an absolute path and a single trailing separator when the input had
one, handling the empty resolved body as Node does. -/
def posixAssemble (isAbs trailing : Bool) (body : List Char) : List Char :=
  if body = [] then
    if isAbs then ['/'] else if trailing then ['.', '/'] else ['.']
  else
    if isAbs then '/' :: (if trailing then body ++ ['/'] else body)
    else (if trailing then body ++ ['/'] else body)

/-- Node `path.posix.normalize` on the character list of the path. -/
def posixNormalizeChars : List Char → List Char
  | [] => ['.']
  | c :: cs =>
    posixAssemble (decide (c = '/')) (decide ((c :: cs).getLast? = some '/'))
      (List.intercalate ['/']
        (normSegsAux (!(decide (c = '/'))) [] (splitOnChar '/' (c :: cs))))

/-- Node `path.posix.normalize`. -/
def posixNormalize (p : String) : String :=
  String.mk (posixNormalizeChars p.data)

/-- Does the string end with a `/`? -/
def endsWithSlash (s : String) : Bool :=
  s.data.getLast? = some '/'

/-! ## Per-stack asset singleton (`mountAssetSingleton`)

`MountableNfs.mountAssetSingleton` (mountable-nfs.ts lines 103-111) and
`MountableFsxLustre.mountAssetSingleton` (part_001 lines 158-166) both
perform `stack.node.tryFindChild(uniqueId) ?? new Asset(stack, uniqueId, ...)`.
A stack is modelled as its identity plus its registry of child constructs;
an `Asset` handle records the stack it was constructed in and its
construct id, which captures CDK object identity (two `Asset` objects are
the same object only if they are the same child of the same stack). -/

/-- Handle to an uploaded script-bundle asset (`Asset`). -/
structure AssetHandle where
  stackId : Nat
  constructId : String
deriving DecidableEq, Repr

/-- A stack (deployment unit): its identity and its child-construct
registry, keyed by construct id. -/
structure Stack where
  stackId : Nat
  children : List (String × AssetHandle)
deriving DecidableEq, Repr

/-- `stack.node.tryFindChild(uniqueId) ?? new Asset(stack, uniqueId, ...)`.
Returns the handle, the (possibly grown) stack, and whether the `Asset`
factory ran. -/
def mountAssetSingleton (uniqueId : String) (stack : Stack) :
    AssetHandle × Stack × Bool :=
  match stack.children.lookup uniqueId with
  | some h => (h, stack, false)
  | none =>
    let h : AssetHandle := { stackId := stack.stackId, constructId := uniqueId }
    (h, { stack with children := (uniqueId, h) :: stack.children }, true)

/-- Repeated invocation: `callSingleton uid s n` is the handle/stack pair
after the `(n+1)`-th call of `mountAssetSingleton` with key `uid`,
starting from stack `s`. -/
def callSingleton (uid : String) (s : Stack) : Nat → AssetHandle × Stack
  | 0 => ((mountAssetSingleton uid s).1, (mountAssetSingleton uid s).2.1)
  | n + 1 =>
    let prev := callSingleton uid s n
    ((mountAssetSingleton uid prev.2).1, (mountAssetSingleton uid prev.2).2.1)

/-- Every registered child was constructed in this stack. -/
def WFStack (s : Stack) : Prop :=
  ∀ p ∈ s.children, (Prod.snd p).stackId = s.stackId

/-- The UUID-derived construct id of the NFS mount-script asset:
`'MountableNfsAsset' + uuid.replace(/[-]/g, '')` (mountable-nfs.ts
lines 105-106). -/
def nfsAssetUniqueId : String :=
  "MountableNfsAsset" ++ ("e76885c2-b1c3-4828-8aaa-eda91e2e60f0".replace "-" "")

/-- The UUID-derived construct id of the FSx for Lustre mount-script
asset (part_001 lines 160-161). -/
def lustreAssetUniqueId : String :=
  "MountableFsxLustreAsset" ++ ("0db888da-5901-4948-aaa5-e71c541c8060".replace "-" "")

/-! ## The generated `is_kernel_version_lower` bash helper

`createIsKernelVersionLowerFunc` (part_001 lines 174-194) emits a bash
function.  Its semantics: split both version strings on the IFS
characters `.` and `-`; if the component counts differ, print an error
and `exit 1`; otherwise scan all index positions and return "lower"
(status 0) as soon as some position has both components numeric
(`^[0-9]+$`) and the left strictly less than the right; return "not
lower" (status 1) if no position qualifies. -/

/-- Split a version string on `.` and `-` (bash `IFS=".-"` field
splitting of `read -r -a`). -/
def versionSplit (s : String) : List (List Char) :=
  splitOnChars ['.', '-'] s.data

/-- The bash helper `is_kernel_version_lower lhs rhs ".-"`:
`Except.error` models the `echo ERROR; exit 1` path, `Except.ok b`
models return status 0 (`true`, lower) or 1 (`false`). -/
def isKernelVersionLower (lhs rhs : String) : Except String Bool :=
  let lhsArray := versionSplit lhs
  let rhsArray := versionSplit rhs
  if lhsArray.length ≠ rhsArray.length then
    Except.error ("ERROR: Kernel version lengths do not match: " ++ lhs ++ " " ++ rhs)
  else
    Except.ok ((lhsArray.zip rhsArray).any (fun lr =>
      allDigits lr.1 && allDigits lr.2 && decide (digitsToNat lr.1 < digitsToNat lr.2)))

/-- Specification-side comparison, following the claim's words: scan the
paired components left-to-right; the first position whose two numeric
components differ decides — lower exactly when that left component is
smaller.  `none` models the component-count-mismatch error. -/
def firstDiffDecides : List (List Char × List Char) → Bool
  | [] => false
  | lr :: rest =>
    if allDigits lr.1 && allDigits lr.2 && decide (digitsToNat lr.1 ≠ digitsToNat lr.2) then
      decide (digitsToNat lr.1 < digitsToNat lr.2)
    else
      firstDiffDecides rest

/-- The claim's version comparison: component-wise, left-to-right, first
differing numeric component decides; error on differing counts. -/
def specVersionLower (lhs rhs : String) : Option Bool :=
  let lhsArray := versionSplit lhs
  let rhsArray := versionSplit rhs
  if lhsArray.length ≠ rhsArray.length then none
  else some (firstDiffDecides (lhsArray.zip rhsArray))

/-! ## Linux distributions and the Lustre client installer -/

/-- `LinuxDistribution` (part_001 lines 36-69). -/
inductive LinuxDistribution where
  | AMAZON_LINUX
  | AMAZON_LINUX_2
  | CENTOS_AND_REDHAT_7_5
  | CENTOS_AND_REDHAT_7_6
  | CENTOS_AND_REDHAT_7_7
  | CENTOS_AND_REDHAT_7_8_X86
  | CENTOS_AND_REDHAT_7_9_X86
  | CENTOS_AND_REDHAT_7_8_GRAVITON
  | CENTOS_AND_REDHAT_7_9_GRAVITON
  | CENTOS_AND_REDHAT_8_2
  | UBUNTU_16_04
  | UBUNTU_18_04
  | UBUNTU_20_04
  | SUSE_LINUX_12_SP3
  | SUSE_LINUX_12_SP4
  | SUSE_LINUX_12_SP5
deriving DecidableEq, Repr

/-- The numeric value of the TypeScript enum member (declaration order),
which is what string interpolation renders in the unsupported-distribution
error message. -/
def LinuxDistribution.toCode : LinuxDistribution → Nat
  | AMAZON_LINUX => 0
  | AMAZON_LINUX_2 => 1
  | CENTOS_AND_REDHAT_7_5 => 2
  | CENTOS_AND_REDHAT_7_6 => 3
  | CENTOS_AND_REDHAT_7_7 => 4
  | CENTOS_AND_REDHAT_7_8_X86 => 5
  | CENTOS_AND_REDHAT_7_9_X86 => 6
  | CENTOS_AND_REDHAT_7_8_GRAVITON => 7
  | CENTOS_AND_REDHAT_7_9_GRAVITON => 8
  | CENTOS_AND_REDHAT_8_2 => 9
  | UBUNTU_16_04 => 10
  | UBUNTU_18_04 => 11
  | UBUNTU_20_04 => 12
  | SUSE_LINUX_12_SP3 => 13
  | SUSE_LINUX_12_SP4 => 14
  | SUSE_LINUX_12_SP5 => 15

/-- The bash text emitted by `createIsKernelVersionLowerFunc` (part_001
lines 174-194), line by line. -/
def createIsKernelVersionLowerFuncLines : List String :=
  [ "function is_kernel_version_lower() \x7b",
    "  local IFS=$3",
    "  read -r -a lhs_array <<< \"$1\"",
    "  read -r -a rhs_array <<< \"$2\"",
    "  if [ $\x7b#lhs_array[@]\x7d -ne $\x7b#rhs_array[@]\x7d ]; then",
    "    echo \"ERROR: Kernel version lengths do not match: $1 $2\"",
    "    exit 1",
    "  fi",
    "  for i in $\x7b!lhs_array[@]\x7d; do",
    "    local lhs=\"$\x7blhs_array[$i]\x7d\"",
    "    local rhs=\"$\x7brhs_array[$i]\x7d\"",
    "    if [[ $lhs =~ ^[0-9]+$ && $rhs =~ ^[0-9]+$ && $lhs -lt $rhs ]]; then",
    "      return 0",
    "    fi",
    "  done",
    "  return 1",
    "\x7d" ]

/-- `createIsKernelVersionLowerFunc()`: the lines joined by newlines. -/
def createIsKernelVersionLowerFunc : String :=
  String.intercalate "\n" createIsKernelVersionLowerFuncLines

/-- The Amazon Linux 2 x86_64 kernel pattern (part_001 line 199). -/
def al2X86KernelPattern : String :=
  "^[0-9]+\\.[0-9]+\\.[0-9]+-[0-9]+\\.[0-9]+\\.amzn2\\.x86_64$"

/-- The Amazon Linux 2 Graviton kernel pattern (part_001 line 200). -/
def al2GravitonKernelPattern : String :=
  "^[0-9]+\\.[0-9]+\\.[0-9]+-[0-9]+\\.[0-9]+\\.amzn2\\.aarch64$"

/-- `getLustreClientInstallationCommands` (part_001 lines 173-247): only
`AMAZON_LINUX_2` is implemented; every other distribution falls through
to the `throw` in the default branch. -/
def getLustreClientInstallationCommands (d : LinuxDistribution) :
    Except String (List String) :=
  match d with
  | LinuxDistribution.AMAZON_LINUX_2 =>
    Except.ok
      [ createIsKernelVersionLowerFunc,
        "set -x",
        "KERNEL_VERSION=$(uname -r)",
        "if [[ \"$KERNEL_VERSION\" =~ " ++ al2X86KernelPattern ++ " ]]; then",
        "  MIN_VER=\"4.14.104-95.84.amzn2.x86_64\"",
        "elif [[ \"$KERNEL_VERSION\" =~ " ++ al2GravitonKernelPattern ++ " ]]; then",
        "  MIN_VER=\"4.14.181-142.260.amzn2.aarch64\"",
        "else",
        "  echo \"Not on Amazon Linux 2. Exiting...\"; exit 1",
        "fi",
        "if is_kernel_version_lower $KERNEL_VERSION $MIN_VER \".-\"; then",
        "  sudo yum -y update kernel && sudo reboot",
        "fi",
        "sudo amazon-linux-extras install -y lustre2.10" ]
  | _ =>
    Except.error ("Linux distribution " ++ toString d.toCode ++ " is not currently not supported")

/-! ## Mounting a filesystem onto a target instance -/

/-- `OperatingSystemType` from the EC2 library. -/
inductive OperatingSystemType where
  | LINUX
  | WINDOWS
  | UNKNOWN
deriving DecidableEq, Repr

/-- Properties of a Linux mount point (`LinuxMountPointProps`). -/
structure LinuxMountPointProps where
  location : String
  permissions : MountPermissions
deriving DecidableEq, Repr

/-- The target instance as this subsystem sees it (`IMountingInstance`):
an OS type, an execution principal, and an append-only boot-script
buffer. -/
structure InstanceTarget where
  osType : OperatingSystemType
  grantPrincipal : String
  userData : List String
deriving DecidableEq, Repr

/-- The definition-time state a mount call can touch: the stack's
child-construct registry (for the asset singleton), the target instance,
the network-policy rules appended by `connections.allowTo`, and the
asset read grants. -/
structure MountWorld where
  stack : Stack
  target : InstanceTarget
  allowedConnections : List (String × Nat)
  readGrants : List (AssetHandle × String)
deriving DecidableEq, Repr

/-- `UserData.addS3DownloadCommand`: appends one download command to the
boot-script buffer and returns the instance-local file path. -/
def addS3DownloadCommand (h : AssetHandle) (ud : List String) :
    String × List String :=
  let localPath := "/tmp/" ++ h.constructId
  (localPath, ud ++ ["aws s3 cp s3://" ++ h.constructId ++ " " ++ localPath])

/-- Properties of a `MountableNfs` (`MountableNfsProps` plus the fields
of the referenced `NfsInstance` that the mount call reads: its identity
for the network rule, its `fullHostname`, its own `mount.location`, and
its connections' default port). -/
structure MountableNfsPropsM where
  fsId : String
  fsFullHostname : String
  fsMountLocation : String
  fsDefaultPort : Nat
  extraMountOptions : Option (List String)
deriving DecidableEq, Repr

/-- `MountableNfs.mountToLinuxInstance` (mountable-nfs.ts lines 69-98).
The returned world carries every mutation performed before a throw, so
an `Except.error` paired with the original world states that nothing was
mutated. -/
def MountableNfs.mountToLinuxInstance (props : MountableNfsPropsM)
    (mount : LinuxMountPointProps) (w : MountWorld) :
    Except String Unit × MountWorld :=
  if w.target.osType ≠ OperatingSystemType.LINUX then
    (Except.error "Target instance must be Linux.", w)
  else
    let w := { w with allowedConnections :=
      w.allowedConnections ++ [(props.fsId, props.fsDefaultPort)] }
    let sing := mountAssetSingleton nfsAssetUniqueId w.stack
    let w := { w with stack := sing.2.1,
                      readGrants := w.readGrants ++ [(sing.1, w.target.grantPrincipal)] }
    let dl := addS3DownloadCommand sing.1 w.target.userData
    let mountScript := dl.1
    let mountDir := posixNormalize mount.location
    let mountOptionsStr := buildMountOptions mount.permissions props.extraMountOptions
    let newUserData := dl.2 ++
      [ "TMPDIR=$(mktemp -d)",
        "pushd \"$TMPDIR\"",
        "unzip " ++ mountScript,
        "bash ./mountNfs.sh " ++ props.fsFullHostname ++ " " ++ props.fsMountLocation
          ++ " " ++ mountDir ++ " " ++ mountOptionsStr,
        "popd",
        "rm -f " ++ mountScript ]
    (Except.ok (), { w with target.userData := newUserData })

/-- Properties of a `MountableFsxLustre` (`MountableFsxLustreProps` plus
the fields of the referenced Lustre filesystem the mount call reads). -/
structure MountableFsxLustrePropsM where
  fsId : String
  fsFileSystemId : String
  fsMountName : String
  fsDefaultPort : Nat
  linuxDistribution : LinuxDistribution
  extraMountOptions : Option (List String)
deriving DecidableEq, Repr

/-- `MountableFsxLustre.mountToLinuxInstance` (part_001 lines 123-153).
The Lustre client-installation commands are computed after the download
command is appended, so an unsupported distribution throws with those
earlier mutations retained — exactly as in the source. -/
def MountableFsxLustre.mountToLinuxInstance (props : MountableFsxLustrePropsM)
    (mount : LinuxMountPointProps) (w : MountWorld) :
    Except String Unit × MountWorld :=
  if w.target.osType ≠ OperatingSystemType.LINUX then
    (Except.error "Target instance must be Linux.", w)
  else
    let w := { w with allowedConnections :=
      w.allowedConnections ++ [(props.fsId, props.fsDefaultPort)] }
    let sing := mountAssetSingleton lustreAssetUniqueId w.stack
    let w := { w with stack := sing.2.1,
                      readGrants := w.readGrants ++ [(sing.1, w.target.grantPrincipal)] }
    let dl := addS3DownloadCommand sing.1 w.target.userData
    let mountScript := dl.1
    let w := { w with target.userData := dl.2 }
    let mountDir := posixNormalize mount.location
    let mountOptionsStr := buildMountOptions mount.permissions props.extraMountOptions
    match getLustreClientInstallationCommands props.linuxDistribution with
    | Except.error e => (Except.error e, w)
    | Except.ok installCmds =>
      let newUserData := w.target.userData ++ installCmds ++
        [ "TMPDIR=$(mktemp -d)",
          "pushd \"$TMPDIR\"",
          "unzip " ++ mountScript,
          "bash ./mountFsxLustre.sh " ++ props.fsFileSystemId ++ " " ++ mountDir
            ++ " " ++ props.fsMountName ++ " " ++ mountOptionsStr,
          "popd",
          "rm -f " ++ mountScript ]
      (Except.ok (), { w with target.userData := newUserData })

/-! ## The `NfsInstance` server orchestrator (part_002) -/

/-- One NFS export record (`NfsExport`). -/
structure NfsExport where
  client : String
  nfsOptions : List String
deriving DecidableEq, Repr

/-- `BlockVolumeFormat` (from `MountableBlockVolume`). -/
inductive BlockVolumeFormat where
  | XFS
  | EXT4
deriving DecidableEq, Repr

/-- `NfsInstanceNewVolumeProps`: caller-supplied properties for a new
volume.  Field values are `Option`s because every property is optional;
the KMS key is abstracted to an identifier. -/
structure NfsInstanceNewVolumeProps where
  size : Option Nat
  encryptionKey : Option Nat
  fileSystemType : Option BlockVolumeFormat
deriving DecidableEq, Repr

/-- `NfsInstanceVolumeProps`: an existing volume (abstracted to an
identifier) or properties for a new one. -/
structure NfsInstanceVolumeProps where
  volume : Option Nat
  volumeProps : Option NfsInstanceNewVolumeProps
deriving DecidableEq, Repr

/-- The property object passed to the EC2 `Volume` constructor, as the
partial record the object literal denotes; `none` means the key is
absent. -/
structure VolumeCreationProps where
  size : Option Nat
  encrypted : Option Bool
  encryptionKey : Option Nat
  fileSystemType : Option BlockVolumeFormat
  availabilityZone : Option String
deriving DecidableEq, Repr

/-- JavaScript object-literal key override: a later entry wins whenever
it is present. -/
def optOverride {α : Type} (earlier later : Option α) : Option α :=
  match later with
  | some x => some x
  | none => earlier

/-- The object literal of part_002 lines 383-388:
`\x7b size: DEFAULT_DEVICE_SIZE, ...volumeProps, availabilityZone, encrypted: true \x7d`.
The default size is written first (the source comments that it is first
so the spread can override it); `availabilityZone` and `encrypted: true`
are written after the spread. -/
def nfsVolumeCreationProps (volumeProps : Option NfsInstanceNewVolumeProps)
    (az : String) : VolumeCreationProps :=
  let base : VolumeCreationProps :=
    { size := some 20, encrypted := none, encryptionKey := none,
      fileSystemType := none, availabilityZone := none }
  let spread :=
    match volumeProps with
    | none => base
    | some vp =>
      { base with
        size := optOverride base.size vp.size,
        encryptionKey := optOverride base.encryptionKey vp.encryptionKey,
        fileSystemType := optOverride base.fileSystemType vp.fileSystemType }
  { spread with availabilityZone := some az, encrypted := some true }

/-- The volume the instance ends up with: the caller's existing volume,
or one created from the object literal above. -/
inductive VolumeDesc where
  | existing (ref : Nat)
  | created (props : VolumeCreationProps)
deriving DecidableEq, Repr

/-- A subnet, as far as this construct reads it. -/
structure Subnet where
  subnetId : String
  availabilityZone : String
deriving DecidableEq, Repr

/-- Subnet selection criteria, abstracted to their JSON serialization
(the construct never inspects them beyond passing them to
`vpc.selectSubnets` and interpolating `JSON.stringify` of them into the
error message). -/
structure SubnetSelection where
  serialized : String
deriving DecidableEq, Repr

/-- `JSON.stringify(props.vpcSubnets)` as interpolated into a template
literal: `undefined` renders as the string "undefined". -/
def stringifySelection : Option SubnetSelection → String
  | none => "undefined"
  | some s => s.serialized

/-- The VPC: resolves a subnet selection to the matching subnets, in
order. -/
structure Vpc where
  selectSubnets : Option SubnetSelection → List Subnet

/-- `NfsInstanceProps` (the fields this model consumes). -/
structure NfsInstancePropsM where
  vpc : Vpc
  vpcSubnets : Option SubnetSelection
  hostname : String
  zoneName : String
  mount : LinuxMountPointProps
  volume : Option NfsInstanceVolumeProps

/-- The constructed `NfsInstance`, as far as the claims read it. -/
structure NfsInstanceModel where
  subnet : Subnet
  volume : VolumeDesc
  volumeFormat : BlockVolumeFormat
  port : Nat
  fullHostname : String
  mount : LinuxMountPointProps
  exports : List NfsExport
  userData : List String
  exportNfsDirectoryScriptPath : String
deriving DecidableEq, Repr

/-- `NfsInstance` constructor (part_002 lines 347-426).  Returns the
names of the resources created, in creation order, alongside the result;
the subnet check precedes every resource creation, so the error branch
returns an empty creation list. -/
def NfsInstance.construct (props : NfsInstancePropsM) :
    List String × Except String NfsInstanceModel :=
  let subnets := props.vpc.selectSubnets props.vpcSubnets
  match subnets with
  | [] =>
    ([], Except.error ("Did not find any subnets matching "
      ++ stringifySelection props.vpcSubnets ++ ". Please use a different selection."))
  | subnet :: _ =>
    let existingVolume := props.volume.bind (·.volume)
    let volumeProps := props.volume.bind (·.volumeProps)
    let volume :=
      match existingVolume with
      | some ref => VolumeDesc.existing ref
      | none => VolumeDesc.created (nfsVolumeCreationProps volumeProps subnet.availabilityZone)
    let volumeFormat :=
      match existingVolume, volumeProps.bind (·.fileSystemType) with
      | none, some fmt => fmt
      | _, _ => BlockVolumeFormat.XFS
    let resources :=
      ["Server", "ARecord"]
      ++ (match existingVolume with | some _ => [] | none => ["Volume"])
      ++ ["NfsInstanceLogGroupWrapper", "NfsInstanceLogsConfig", "ExportNfsDirectoryAsset"]
    let ud0 : List String :=
      [ "set -xefuo pipefail",
        "signal-on-exit",
        "configure-cloudwatch-agent",
        "mount-block-volume " ++ props.mount.location,
        "sudo yum install -y nfs-utils nfs-utils-lib",
        "sudo service nfs start",
        "sudo chkconfig --level 35 nfs on" ]
    let dl := addS3DownloadCommand
      { stackId := 0, constructId := "ExportNfsDirectoryAsset" } ud0
    (resources, Except.ok
      { subnet := subnet,
        volume := volume,
        volumeFormat := volumeFormat,
        port := 2049,
        fullHostname := props.hostname ++ "." ++ props.zoneName,
        mount := props.mount,
        exports := [],
        userData := dl.2,
        exportNfsDirectoryScriptPath := dl.1 })

/-- The default `nfsOptions` of `NfsInstance.share` (part_002 line 433). -/
def defaultShareOptions : List String :=
  ["rw", "sync", "no_subtree_check", "insecure"]

/-- `UserData.addExecuteFileCommand`: appends one command executing the
downloaded file with the given argument string. -/
def executeFileCommand (filePath arguments : String) : String :=
  "bash " ++ filePath ++ " " ++ arguments

/-- `NfsInstance.share` (part_002 lines 433-443): pushes one export
record and appends one execute-file boot command whose argument string
interpolates the mount location, the client, and the options array
(template-literal rendering of an array joins it with commas). -/
def NfsInstance.share (m : NfsInstanceModel) (client : String)
    (nfsOptions : List String) : NfsInstanceModel :=
  { m with
    exports := m.exports ++ [{ client := client, nfsOptions := nfsOptions }],
    userData := m.userData ++
      [ executeFileCommand m.exportNfsDirectoryScriptPath
          ("\"" ++ m.mount.location ++ "\" \"" ++ client ++ "\" \""
            ++ String.intercalate "," nfsOptions ++ "\"") ] }

/-! ## The `mountNfs.sh` client bootstrap script (lines 44-54)

```
TRIES=0
MAX_TRIES=20
while test TRIES -lt MAX_TRIES && ! sudo mount -a -t nfs4
do
  let TRIES=TRIES+1
  sleep 2
done
cat /proc/mounts | grep MOUNT_PATH
exit $?
```

The loop condition runs one mount attempt whenever `TRIES < MAX_TRIES`;
a successful attempt exits the loop, a failed one sleeps 2 seconds and
increments `TRIES`.  The script's exit status is the status of the final
`grep` over the live mount table. -/

/-- Observable boot-time events of the retry loop. -/
inductive BootEvent where
  | attempt (tryIndex : Nat)
  | sleep (seconds : Nat)
deriving DecidableEq, Repr

/-- `MAX_TRIES` in mountNfs.sh. -/
def MAX_TRIES : Nat := 20

/-- The retry loop, driven by the outcome `mountOk n` of the mount
attempt made while `TRIES = n`; `fuel = MAX_TRIES - TRIES` attempts
remain. -/
def mountRetryLoop (mountOk : Nat → Bool) : Nat → Nat → List BootEvent
  | 0, _ => []
  | fuel + 1, tries =>
    BootEvent.attempt tries ::
      (if mountOk tries then []
       else BootEvent.sleep 2 :: mountRetryLoop mountOk fuel (tries + 1))

/-- The event trace of the mountNfs.sh retry loop. -/
def mountNfsEvents (mountOk : Nat → Bool) : List BootEvent :=
  mountRetryLoop mountOk MAX_TRIES 0

/-- Number of mount attempts in a trace. -/
def countAttempts (events : List BootEvent) : Nat :=
  (events.filter (fun e => match e with
    | BootEvent.attempt _ => true
    | BootEvent.sleep _ => false)).length

/-- The trace shape of a fixed-delay retry loop: a possibly empty run of
attempts, every attempt but the last followed by exactly one 2-second
sleep before the next attempt. -/
def retryShape : List BootEvent → Bool
  | [] => true
  | [BootEvent.attempt _] => true
  | BootEvent.attempt _ :: BootEvent.sleep s :: rest => s == 2 && retryShape rest
  | _ => false

/-- Is `pat` a contiguous segment of `l`? -/
def listInfix (pat : List Char) : List Char → Bool
  | [] => pat.isEmpty
  | c :: tl => pat.isPrefixOf (c :: tl) || listInfix pat tl

/-- Does `line` contain `pat` as a substring?  (`grep` with a literal
pattern succeeds on a line exactly when this holds.) -/
def lineContains (line pat : String) : Bool :=
  listInfix pat.data line.data

/-- The script's final exit status: that of
`cat /proc/mounts | grep MOUNT_PATH` — 0 when some line of the live
mount table contains the mount path, 1 otherwise.  The mount command's
own exit status does not reach `exit $?`. -/
def mountNfsExit (procMounts : List String) (mountPath : String) : Nat :=
  if procMounts.any (fun line => lineContains line mountPath) then 0 else 1

/-- The whole script, observationally: the retry-loop event trace given
the per-attempt mount outcomes, and the final exit status given the live
mount table at verification time. -/
def mountNfsScript (mountOk : Nat → Bool) (procMounts : List String)
    (mountPath : String) : List BootEvent × Nat :=
  (mountNfsEvents mountOk, mountNfsExit procMounts mountPath)

/-! ## Helper lemmas -/

theorem lookup_mem {l : List (String × AssetHandle)} {k : String} {v : AssetHandle}
    (h : l.lookup k = some v) : (k, v) ∈ l := by
  induction l with
  | nil => simp [List.lookup] at h
  | cons p rest ih =>
    rw [List.lookup] at h
    by_cases hk : k == p.1
    · rw [hk] at h
      simp only [Option.some.injEq] at h
      have : k = p.1 := eq_of_beq hk
      subst this
      subst h
      exact List.mem_cons_self _ _
    · rw [Bool.not_eq_true] at hk
      rw [hk] at h
      exact List.mem_cons_of_mem _ (ih h)

theorem mountAssetSingleton_handle_stackId (uid : String) (s : Stack)
    (hWF : WFStack s) : ((mountAssetSingleton uid s).1).stackId = s.stackId := by
  unfold mountAssetSingleton
  cases h : s.children.lookup uid with
  | none => simp
  | some a => simpa using hWF (uid, a) (lookup_mem h)

theorem mountAssetSingleton_fixpoint (uid : String) (s : Stack) :
    mountAssetSingleton uid (mountAssetSingleton uid s).2.1
      = ((mountAssetSingleton uid s).1, (mountAssetSingleton uid s).2.1, false) := by
  unfold mountAssetSingleton
  cases h : s.children.lookup uid with
  | some a => simp [h]
  | none => simp [h, List.lookup]

theorem callSingleton_stable (uid : String) (s : Stack) :
    ∀ n, callSingleton uid s n = ((mountAssetSingleton uid s).1, (mountAssetSingleton uid s).2.1) := by
  intro n
  induction n with
  | zero => rfl
  | succ n ih =>
    show ((mountAssetSingleton uid (callSingleton uid s n).2).1,
          (mountAssetSingleton uid (callSingleton uid s n).2).2.1) = _
    rw [ih]
    rw [mountAssetSingleton_fixpoint]

/-- C1: within one stack, the mount-script asset singleton lookup is
idempotent — every call after the first returns the object-identical
handle, leaves the stack's child registry unchanged, and does not invoke
the `Asset` factory (so the factory runs at most once per stack and
identity key) — while the same identity key looked up in two stacks with
distinct identities yields non-identical handles. -/
theorem asset_singleton_dedup_per_stack :
    (∀ (uid : String) (s : Stack) (n : Nat),
      (callSingleton uid s n).1 = (mountAssetSingleton uid s).1
      ∧ (callSingleton uid s n).2 = (mountAssetSingleton uid s).2.1
      ∧ (mountAssetSingleton uid (mountAssetSingleton uid s).2.1).2.2 = false)
    ∧ (∀ (uid : String) (s t : Stack), WFStack s → WFStack t →
        s.stackId ≠ t.stackId →
        (mountAssetSingleton uid s).1 ≠ (mountAssetSingleton uid t).1) := by
  constructor
  · intro uid s n
    refine ⟨by rw [callSingleton_stable], by rw [callSingleton_stable], ?_⟩
    rw [mountAssetSingleton_fixpoint]
  · intro uid s t hs ht hne heq
    apply hne
    rw [← mountAssetSingleton_handle_stackId uid s hs,
        ← mountAssetSingleton_handle_stackId uid t ht, heq]

/-- C1 witness: concrete distinct stacks yield distinct handles, and the
second call in a concrete stack does not run the factory. -/
theorem asset_singleton_dedup_per_stack_witness :
    (mountAssetSingleton nfsAssetUniqueId { stackId := 0, children := [] }).1
      ≠ (mountAssetSingleton nfsAssetUniqueId { stackId := 1, children := [] }).1
    ∧ (callSingleton nfsAssetUniqueId { stackId := 0, children := [] } 5).1
      = (mountAssetSingleton nfsAssetUniqueId { stackId := 0, children := [] }).1 :=
  ⟨asset_singleton_dedup_per_stack.2 nfsAssetUniqueId
      { stackId := 0, children := [] } { stackId := 1, children := [] }
      (by intro p hp; simp [WFStack] at hp) (by intro p hp; simp [WFStack] at hp)
      (by decide),
   (asset_singleton_dedup_per_stack.1 nfsAssetUniqueId
      { stackId := 0, children := [] } 5).1⟩

/-- C2: for a target whose OS type is not Linux, both
`MountableNfs.mountToLinuxInstance` and
`MountableFsxLustre.mountToLinuxInstance` throw
"Target instance must be Linux." and return the world exactly as it was:
no boot-script line is appended and no network-policy rule is added. -/
theorem mount_to_nonlinux_errors_without_mutation :
    ∀ (nprops : MountableNfsPropsM) (lprops : MountableFsxLustrePropsM)
      (mount : LinuxMountPointProps) (w : MountWorld),
      w.target.osType ≠ OperatingSystemType.LINUX →
        MountableNfs.mountToLinuxInstance nprops mount w
          = (Except.error "Target instance must be Linux.", w)
        ∧ MountableFsxLustre.mountToLinuxInstance lprops mount w
          = (Except.error "Target instance must be Linux.", w) := by
  intro nprops lprops mount w h
  constructor
  · unfold MountableNfs.mountToLinuxInstance
    rw [if_pos h]
  · unfold MountableFsxLustre.mountToLinuxInstance
    rw [if_pos h]

/-- C2 witness: a concrete Windows target is rejected with the exact
error and an unchanged world, for both filesystem backends. -/
theorem mount_to_nonlinux_errors_without_mutation_witness :
    MountableNfs.mountToLinuxInstance
        { fsId := "fs", fsFullHostname := "nfs.example.com",
          fsMountLocation := "/mnt/fs", fsDefaultPort := 2049,
          extraMountOptions := none }
        { location := "/mnt/client", permissions := MountPermissions.READWRITE }
        { stack := { stackId := 0, children := [] },
          target := { osType := OperatingSystemType.WINDOWS,
                      grantPrincipal := "role", userData := ["existing"] },
          allowedConnections := [], readGrants := [] }
      = (Except.error "Target instance must be Linux.",
         { stack := { stackId := 0, children := [] },
           target := { osType := OperatingSystemType.WINDOWS,
                       grantPrincipal := "role", userData := ["existing"] },
           allowedConnections := [], readGrants := [] })
    ∧ MountableFsxLustre.mountToLinuxInstance
        { fsId := "fsx", fsFileSystemId := "fs-123", fsMountName := "mountname",
          fsDefaultPort := 988, linuxDistribution := LinuxDistribution.AMAZON_LINUX_2,
          extraMountOptions := none }
        { location := "/mnt/client", permissions := MountPermissions.READWRITE }
        { stack := { stackId := 0, children := [] },
          target := { osType := OperatingSystemType.WINDOWS,
                      grantPrincipal := "role", userData := ["existing"] },
          allowedConnections := [], readGrants := [] }
      = (Except.error "Target instance must be Linux.",
         { stack := { stackId := 0, children := [] },
           target := { osType := OperatingSystemType.WINDOWS,
                       grantPrincipal := "role", userData := ["existing"] },
           allowedConnections := [], readGrants := [] }) :=
  mount_to_nonlinux_errors_without_mutation _ _ _ _ (by decide)

theorem renderOptionsSpec_append (pre x : String) :
    ∀ xs : List String, renderOptionsSpec (pre ++ x) xs = pre ++ renderOptionsSpec x xs := by
  intro xs
  induction xs generalizing pre x with
  | nil => rfl
  | cons y ys ih =>
    show (pre ++ x) ++ "," ++ renderOptionsSpec y ys = pre ++ (x ++ "," ++ renderOptionsSpec y ys)
    rw [String.append_assoc, String.append_assoc, String.append_assoc]

theorem intercalate_go_eq_render (flag : String) :
    ∀ xs : List String, String.intercalate.go flag "," xs = renderOptionsSpec flag xs := by
  intro xs
  induction xs generalizing flag with
  | nil => rfl
  | cons x ys ih =>
    show String.intercalate.go (flag ++ "," ++ x) "," ys = renderOptionsSpec flag (x :: ys)
    rw [ih (flag ++ "," ++ x)]
    show renderOptionsSpec ((flag ++ ",") ++ x) ys = flag ++ "," ++ renderOptionsSpec x ys
    rw [renderOptionsSpec_append (flag ++ ",") x ys, String.append_assoc]

/-- C3: the rendered mount-options token is the derived permission flag
first, then the caller-supplied extra options in their given order,
comma-joined with no reordering and no deduplication (and just the flag
when no extras are supplied); in particular, ReadWrite with extras
`["soft", "rsize=4096"]` renders exactly "rw,soft,rsize=4096", and the
NFS mount invocation appended to a Linux target's boot script
interpolates exactly this token. -/
theorem mount_options_order_preserving :
    (∀ (permissions : MountPermissions) (extra : List String),
      buildMountOptions permissions (some extra)
        = renderOptionsSpec (MountPermissionsHelper.toLinuxMountOption permissions) extra)
    ∧ (∀ permissions : MountPermissions,
        buildMountOptions permissions none
          = MountPermissionsHelper.toLinuxMountOption permissions)
    ∧ buildMountOptions MountPermissions.READWRITE (some ["soft", "rsize=4096"])
        = "rw,soft,rsize=4096"
    ∧ (∀ (props : MountableNfsPropsM) (mount : LinuxMountPointProps) (w : MountWorld),
        w.target.osType = OperatingSystemType.LINUX →
        ("bash ./mountNfs.sh " ++ props.fsFullHostname ++ " " ++ props.fsMountLocation
            ++ " " ++ posixNormalize mount.location ++ " "
            ++ buildMountOptions mount.permissions props.extraMountOptions)
          ∈ ((MountableNfs.mountToLinuxInstance props mount w).2).target.userData) := by
  refine ⟨?_, ?_, by decide, ?_⟩
  · intro permissions extra
    show String.intercalate ","
        (MountPermissionsHelper.toLinuxMountOption permissions :: extra) = _
    rw [String.intercalate]
    exact intercalate_go_eq_render _ extra
  · intro permissions
    rfl
  · intro props mount w h
    unfold MountableNfs.mountToLinuxInstance
    rw [if_neg (by simp [h])]
    simp [addS3DownloadCommand]

/-- C3 witness: the option token and the interpolated NFS mount command
on a concrete Linux target. -/
theorem mount_options_order_preserving_witness :
    buildMountOptions MountPermissions.READWRITE (some ["soft", "rsize=4096"])
      = renderOptionsSpec "rw" ["soft", "rsize=4096"]
    ∧ ("bash ./mountNfs.sh " ++ "nfs.example.com" ++ " " ++ "/mnt/fs" ++ " "
        ++ posixNormalize "/mnt/client" ++ " "
        ++ buildMountOptions MountPermissions.READWRITE (some ["soft", "rsize=4096"]))
      ∈ ((MountableNfs.mountToLinuxInstance
          { fsId := "fs", fsFullHostname := "nfs.example.com",
            fsMountLocation := "/mnt/fs", fsDefaultPort := 2049,
            extraMountOptions := some ["soft", "rsize=4096"] }
          { location := "/mnt/client", permissions := MountPermissions.READWRITE }
          { stack := { stackId := 0, children := [] },
            target := { osType := OperatingSystemType.LINUX,
                        grantPrincipal := "role", userData := [] },
            allowedConnections := [], readGrants := [] }).2).target.userData :=
  ⟨mount_options_order_preserving.1 MountPermissions.READWRITE ["soft", "rsize=4096"],
   mount_options_order_preserving.2.2.2
     { fsId := "fs", fsFullHostname := "nfs.example.com",
       fsMountLocation := "/mnt/fs", fsDefaultPort := 2049,
       extraMountOptions := some ["soft", "rsize=4096"] }
     { location := "/mnt/client", permissions := MountPermissions.READWRITE }
     { stack := { stackId := 0, children := [] },
       target := { osType := OperatingSystemType.LINUX,
                   grantPrincipal := "role", userData := [] },
       allowedConnections := [], readGrants := [] }
     rfl⟩

/-- C4: the generated `is_kernel_version_lower` does NOT let the first
differing numeric component decide.  On the reachable Amazon Linux 2
kernel pair below, the left version is newer at the first differing
numeric component (15 > 14), so a first-differing-component comparison
reports "not lower"; the generated helper nevertheless reports "lower"
because a later component pair (0 < 104) satisfies its existential scan.
The loud failure on differing component counts does hold (last
conjunct). -/
theorem kernel_version_lower_ignores_first_difference :
    isKernelVersionLower "4.15.0-0.0.amzn2.x86_64" "4.14.104-95.84.amzn2.x86_64"
      = Except.ok true
    ∧ specVersionLower "4.15.0-0.0.amzn2.x86_64" "4.14.104-95.84.amzn2.x86_64"
      = some false
    ∧ isKernelVersionLower "4.14" "4.14.104"
      = Except.error "ERROR: Kernel version lengths do not match: 4.14 4.14.104" := by
  refine ⟨rfl, by decide, rfl⟩

/-- C9 counterexample: the two architecture-specific minimum kernel
versions split on `.` and `-` into seven components each, so the
generated helper raises no component-count error on them at all — it
returns "lower" (status 0). -/
theorem kernel_version_pair_raises_no_error :
    isKernelVersionLower "4.14.104-95.84.amzn2.x86_64" "4.14.181-142.260.amzn2.aarch64"
      = Except.ok true := by
  rfl

/-- C9 amended: on that input pair, both versions have exactly seven
dot/dash-delimited components, so the structural check passes; the
helper compares numeric components and reports the left version lower
(third components 104 < 181), which is also what a first-differing-
component comparison reports here. -/
theorem kernel_version_pair_equal_component_counts :
    (versionSplit "4.14.104-95.84.amzn2.x86_64").length = 7
    ∧ (versionSplit "4.14.181-142.260.amzn2.aarch64").length = 7
    ∧ Except.ok (some true)
        = Except.map some (isKernelVersionLower "4.14.104-95.84.amzn2.x86_64"
            "4.14.181-142.260.amzn2.aarch64")
    ∧ specVersionLower "4.14.104-95.84.amzn2.x86_64" "4.14.181-142.260.amzn2.aarch64"
      = some true := by
  refine ⟨by decide, by decide, rfl, by decide⟩

/-- C5: every `share` call appends exactly one `\x7bclient, options\x7d`
record to the exports list and exactly one export-script boot command to
the server's boot-script buffer, with no deduplication or merging; in
particular, two identical calls with the default options grow the
export-record list and the boot-script buffer by two each. -/
theorem share_appends_one_record_one_command :
    ∀ (m : NfsInstanceModel) (client : String) (nfsOptions : List String),
      (NfsInstance.share m client nfsOptions).exports
        = m.exports ++ [{ client := client, nfsOptions := nfsOptions }]
      ∧ (NfsInstance.share m client nfsOptions).userData
        = m.userData ++
            [ executeFileCommand m.exportNfsDirectoryScriptPath
                ("\"" ++ m.mount.location ++ "\" \"" ++ client ++ "\" \""
                  ++ String.intercalate "," nfsOptions ++ "\"") ]
      ∧ defaultShareOptions = ["rw", "sync", "no_subtree_check", "insecure"]
      ∧ ((NfsInstance.share (NfsInstance.share m client defaultShareOptions)
            client defaultShareOptions).exports).length = m.exports.length + 2
      ∧ ((NfsInstance.share (NfsInstance.share m client defaultShareOptions)
            client defaultShareOptions).userData).length = m.userData.length + 2 := by
  intro m client nfsOptions
  refine ⟨rfl, rfl, rfl, ?_, ?_⟩
  · simp [NfsInstance.share]
  · simp [NfsInstance.share]

/-- C6: if the subnet selection resolves to zero subnets, `NfsInstance`
construction fails with a configuration error whose message embeds the
serialized selection criteria, and the creation list is empty (no
server, DNS record, volume, or log group); if it resolves to one or more
subnets, the first matching subnet is the one chosen. -/
theorem construct_subnet_selection :
    (∀ props : NfsInstancePropsM,
      props.vpc.selectSubnets props.vpcSubnets = [] →
      NfsInstance.construct props
        = ([], Except.error ("Did not find any subnets matching "
            ++ stringifySelection props.vpcSubnets ++ ". Please use a different selection.")))
    ∧ (∀ (props : NfsInstancePropsM) (s : Subnet) (rest : List Subnet),
        props.vpc.selectSubnets props.vpcSubnets = s :: rest →
        Except.map (fun m => m.subnet) (NfsInstance.construct props).2 = Except.ok s) := by
  constructor
  · intro props h
    unfold NfsInstance.construct
    rw [h]
  · intro props s rest h
    unfold NfsInstance.construct
    rw [h]
    rfl

/-- C6 witness: a concrete empty selection fails with the serialized
criteria in the message and creates nothing; a concrete two-subnet
selection picks the first subnet. -/
theorem construct_subnet_selection_witness :
    NfsInstance.construct
        { vpc := { selectSubnets := fun _ => [] },
          vpcSubnets := some { serialized := "\x7b\"subnetType\":\"Private\"\x7d" },
          hostname := "nfs", zoneName := "example.com",
          mount := { location := "/mnt/fs", permissions := MountPermissions.READWRITE },
          volume := none }
      = ([], Except.error ("Did not find any subnets matching "
          ++ "\x7b\"subnetType\":\"Private\"\x7d" ++ ". Please use a different selection."))
    ∧ Except.map (fun m => m.subnet)
        (NfsInstance.construct
          { vpc := { selectSubnets := fun _ =>
              [{ subnetId := "s-1", availabilityZone := "az-a" },
               { subnetId := "s-2", availabilityZone := "az-b" }] },
            vpcSubnets := none,
            hostname := "nfs", zoneName := "example.com",
            mount := { location := "/mnt/fs", permissions := MountPermissions.READWRITE },
            volume := none }).2
      = Except.ok { subnetId := "s-1", availabilityZone := "az-a" } :=
  ⟨construct_subnet_selection.1 _ rfl,
   construct_subnet_selection.2 _ { subnetId := "s-1", availabilityZone := "az-a" }
     [{ subnetId := "s-2", availabilityZone := "az-b" }] rfl⟩

theorem countAttempts_mountRetryLoop_le (mountOk : Nat → Bool) :
    ∀ (fuel tries : Nat), countAttempts (mountRetryLoop mountOk fuel tries) ≤ fuel := by
  intro fuel
  induction fuel with
  | zero => intro tries; simp [mountRetryLoop, countAttempts]
  | succ n ih =>
    intro tries
    by_cases h : mountOk tries = true
    · simp [mountRetryLoop, h, countAttempts]
    · rw [Bool.not_eq_true] at h
      simp only [mountRetryLoop, h, if_false, countAttempts, List.filter, List.length_cons]
      have := ih (tries + 1)
      simp only [countAttempts] at this
      omega

theorem retryShape_mountRetryLoop (mountOk : Nat → Bool) :
    ∀ (fuel tries : Nat), retryShape (mountRetryLoop mountOk fuel tries) = true := by
  intro fuel
  induction fuel with
  | zero => intro tries; rfl
  | succ n ih =>
    intro tries
    by_cases h : mountOk tries = true
    · simp [mountRetryLoop, h, retryShape]
    · rw [Bool.not_eq_true] at h
      cases hrec : mountRetryLoop mountOk n (tries + 1) with
      | nil => simp [mountRetryLoop, h, hrec, retryShape]
      | cons e rest =>
        have hshape := ih (tries + 1)
        rw [hrec] at hshape
        simp [mountRetryLoop, h, hrec, retryShape, hshape]

/-- C7: the mountNfs.sh bootstrap never makes more than `MAX_TRIES = 20`
mount attempts (exactly 20 when the mount keeps failing); every wait in
the trace is the fixed 2-second sleep placed between consecutive
attempts (no backoff); and the script's final exit status is decided by
the live mount-table check alone — zero exactly when some `/proc/mounts`
line contains the mount path, independent of every mount attempt's own
outcome. -/
theorem mountNfs_retry_and_exit :
    (∀ mountOk : Nat → Bool, countAttempts (mountNfsEvents mountOk) ≤ 20)
    ∧ countAttempts (mountNfsEvents (fun _ => false)) = 20
    ∧ (∀ mountOk : Nat → Bool, retryShape (mountNfsEvents mountOk) = true)
    ∧ (∀ (ok1 ok2 : Nat → Bool) (procMounts : List String) (mountPath : String),
        (mountNfsScript ok1 procMounts mountPath).2
          = (mountNfsScript ok2 procMounts mountPath).2)
    ∧ (∀ (mountOk : Nat → Bool) (procMounts : List String) (mountPath : String),
        ((mountNfsScript mountOk procMounts mountPath).2 = 0
          ↔ procMounts.any (fun line => lineContains line mountPath) = true)) := by
  refine ⟨?_, by decide, ?_, ?_, ?_⟩
  · intro mountOk
    exact countAttempts_mountRetryLoop_le mountOk MAX_TRIES 0
  · intro mountOk
    exact retryShape_mountRetryLoop mountOk MAX_TRIES 0
  · intro ok1 ok2 procMounts mountPath
    rfl
  · intro mountOk procMounts mountPath
    show mountNfsExit procMounts mountPath = 0 ↔ _
    unfold mountNfsExit
    by_cases h : procMounts.any (fun line => lineContains line mountPath) = true
    · simp [h]
    · rw [Bool.not_eq_true] at h
      simp [h]

/-- C7 witness: concrete traces and exit statuses — an always-failing
mount makes 20 attempts, and the exit status follows the live mount
table even when every attempt failed and even when one succeeded. -/
theorem mountNfs_retry_and_exit_witness :
    countAttempts (mountNfsEvents (fun _ => false)) ≤ 20
    ∧ retryShape (mountNfsEvents (fun n => n == 3)) = true
    ∧ (mountNfsScript (fun _ => false) ["host:/mnt/fs /mnt/dir nfs4 rw 0 0"] "/mnt/dir").2
        = (mountNfsScript (fun _ => true) ["host:/mnt/fs /mnt/dir nfs4 rw 0 0"] "/mnt/dir").2
    ∧ ((mountNfsScript (fun _ => true) [] "/mnt/dir").2 = 0 ↔ List.any [] (fun line => lineContains line "/mnt/dir") = true) :=
  ⟨mountNfs_retry_and_exit.1 (fun _ => false),
   mountNfs_retry_and_exit.2.2.1 (fun n => n == 3),
   mountNfs_retry_and_exit.2.2.2.1 (fun _ => false) (fun _ => true)
     ["host:/mnt/fs /mnt/dir nfs4 rw 0 0"] "/mnt/dir",
   mountNfs_retry_and_exit.2.2.2.2 (fun _ => true) [] "/mnt/dir"⟩

theorem posixAssemble_trailing (isAbs : Bool) (body : List Char) :
    (posixAssemble isAbs true body).getLast? = some '/' := by
  cases body with
  | nil => cases isAbs <;> simp [posixAssemble]
  | cons b bs =>
    cases isAbs with
    | false =>
      show (((b :: bs) ++ ['/']) : List Char).getLast? = some '/'
      exact List.getLast?_concat _
    | true =>
      show (('/' :: ((b :: bs) ++ ['/'])) : List Char).getLast? = some '/'
      rw [← List.cons_append]
      exact List.getLast?_concat _

theorem posixNormalizeChars_trailing (l : List Char)
    (hl : l.getLast? = some '/') : (posixNormalizeChars l).getLast? = some '/' := by
  cases l with
  | nil => simp [List.getLast?] at hl
  | cons c cs =>
    have ht : decide ((c :: cs).getLast? = some '/') = true := by simp [hl]
    simp only [posixNormalizeChars, ht]
    exact posixAssemble_trailing _ _

theorem popDotDot_no_nil (b : Bool) (acc : List (List Char))
    (hacc : [] ∉ acc) : [] ∉ popDotDot b acc := by
  cases acc with
  | nil =>
    cases b with
    | false => simp [popDotDot]
    | true => simp [popDotDot]
  | cons top tl =>
    by_cases ht : top = ['.', '.']
    · simp only [popDotDot, if_pos ht]
      intro hm
      rcases List.mem_cons.mp hm with h | h
      · exact List.noConfusion h.symm
      · exact hacc h
    · simp only [popDotDot, if_neg ht]
      exact fun hm => hacc (List.mem_cons_of_mem _ hm)

theorem normSegsAux_no_nil (b : Bool) :
    ∀ (segs acc : List (List Char)), [] ∉ acc → [] ∉ normSegsAux b acc segs := by
  intro segs
  induction segs with
  | nil =>
    intro acc h
    simpa [normSegsAux] using h
  | cons seg rest ih =>
    intro acc hacc
    by_cases h1 : seg = [] ∨ seg = ['.']
    · show [] ∉ normSegsAux b acc (seg :: rest)
      simp only [normSegsAux, if_pos h1]
      exact ih acc hacc
    · have hseg : seg ≠ [] := fun he => h1 (Or.inl he)
      by_cases h2 : seg = ['.', '.']
      · show [] ∉ normSegsAux b acc (seg :: rest)
        simp only [normSegsAux, if_neg h1, if_pos h2]
        exact ih _ (popDotDot_no_nil b acc hacc)
      · show [] ∉ normSegsAux b acc (seg :: rest)
        simp only [normSegsAux, if_neg h1, if_neg h2]
        refine ih _ ?_
        intro hm
        rcases List.mem_cons.mp hm with h | h
        · exact hseg h.symm
        · exact hacc h

/-- C8 counterexample: for a location that ends in a separator, the
interpolated mount directory keeps a trailing separator — the claim's
"any trailing separator is stripped" is false of
`path.posix.normalize`. -/
theorem mount_dir_trailing_separator_kept :
    posixNormalize "/mnt/share/" = "/mnt/share/"
    ∧ endsWithSlash (posixNormalize "/mnt/share/") = true := by
  exact ⟨by decide, by decide⟩

/-- C8 amended: the local mount path interpolated into the mount-script
invocation is the posix-normalized caller location — redundant
separators are collapsed (no empty segment survives resolution) and `.`
and `..` segments are resolved — but a trailing separator is preserved
as a single separator rather than stripped. -/
theorem mount_dir_posix_normalization :
    (∀ p : String, endsWithSlash p = true → endsWithSlash (posixNormalize p) = true)
    ∧ (∀ (b : Bool) (segs : List (List Char)), [] ∉ normSegsAux b [] segs)
    ∧ posixNormalize "/mnt//share//" = "/mnt/share/"
    ∧ posixNormalize "/mnt//share" = "/mnt/share"
    ∧ (∀ (props : MountableFsxLustrePropsM) (mount : LinuxMountPointProps)
        (w : MountWorld),
        w.target.osType = OperatingSystemType.LINUX →
        props.linuxDistribution = LinuxDistribution.AMAZON_LINUX_2 →
        ("bash ./mountFsxLustre.sh " ++ props.fsFileSystemId ++ " "
            ++ posixNormalize mount.location ++ " " ++ props.fsMountName ++ " "
            ++ buildMountOptions mount.permissions props.extraMountOptions)
          ∈ ((MountableFsxLustre.mountToLinuxInstance props mount w).2).target.userData) := by
  refine ⟨?_, ?_, by decide, by decide, ?_⟩
  · intro p h
    have hl : p.data.getLast? = some '/' := of_decide_eq_true h
    exact decide_eq_true (posixNormalizeChars_trailing p.data hl)
  · intro b segs
    exact normSegsAux_no_nil b segs [] (by simp)
  · intro props mount w h hd
    unfold MountableFsxLustre.mountToLinuxInstance
    rw [if_neg (by simp [h])]
    rw [hd]
    simp [getLustreClientInstallationCommands, addS3DownloadCommand]

/-- C8 witness: trailing-separator preservation and interpolation at a
concrete Lustre mount on a Linux target. -/
theorem mount_dir_posix_normalization_witness :
    endsWithSlash (posixNormalize "/a/b/") = true
    ∧ ("bash ./mountFsxLustre.sh " ++ "fs-123" ++ " "
        ++ posixNormalize "/mnt//client/" ++ " " ++ "mountname" ++ " "
        ++ buildMountOptions MountPermissions.READONLY none)
      ∈ ((MountableFsxLustre.mountToLinuxInstance
          { fsId := "fsx", fsFileSystemId := "fs-123", fsMountName := "mountname",
            fsDefaultPort := 988,
            linuxDistribution := LinuxDistribution.AMAZON_LINUX_2,
            extraMountOptions := none }
          { location := "/mnt//client/", permissions := MountPermissions.READONLY }
          { stack := { stackId := 0, children := [] },
            target := { osType := OperatingSystemType.LINUX,
                        grantPrincipal := "role", userData := [] },
            allowedConnections := [], readGrants := [] }).2).target.userData :=
  ⟨mount_dir_posix_normalization.1 "/a/b/" (by decide),
   mount_dir_posix_normalization.2.2.2.2
     { fsId := "fsx", fsFileSystemId := "fs-123", fsMountName := "mountname",
       fsDefaultPort := 988,
       linuxDistribution := LinuxDistribution.AMAZON_LINUX_2,
       extraMountOptions := none }
     { location := "/mnt//client/", permissions := MountPermissions.READONLY }
     { stack := { stackId := 0, children := [] },
       target := { osType := OperatingSystemType.LINUX,
                   grantPrincipal := "role", userData := [] },
       allowedConnections := [], readGrants := [] }
     rfl rfl⟩

/-- C10: every volume that `NfsInstance` construction creates (i.e.
whenever the caller supplies no existing volume) is encrypted,
unconditionally: `encrypted: true` is written after the spread of the
caller's `volumeProps`, so no caller-supplied volume property can
produce an unencrypted volume; the size (default 20 GiB) and the
encryption key are the caller-overridable properties, and the
availability zone is likewise forced to the chosen subnet's. -/
theorem created_volume_always_encrypted :
    (∀ (vp : Option NfsInstanceNewVolumeProps) (az : String),
      (nfsVolumeCreationProps vp az).encrypted = some true
      ∧ (nfsVolumeCreationProps vp az).size = some ((vp.bind (fun v => v.size)).getD 20)
      ∧ (nfsVolumeCreationProps vp az).encryptionKey = vp.bind (fun v => v.encryptionKey)
      ∧ (nfsVolumeCreationProps vp az).availabilityZone = some az)
    ∧ (∀ (props : NfsInstancePropsM) (s : Subnet) (rest : List Subnet),
        props.volume.bind (fun v => v.volume) = none →
        props.vpc.selectSubnets props.vpcSubnets = s :: rest →
        Except.map (fun m => m.volume) (NfsInstance.construct props).2
          = Except.ok (VolumeDesc.created
              (nfsVolumeCreationProps (props.volume.bind (fun v => v.volumeProps))
                s.availabilityZone))) := by
  constructor
  · intro vp az
    cases vp with
    | none => exact ⟨rfl, rfl, rfl, rfl⟩
    | some v =>
      refine ⟨rfl, ?_, ?_, rfl⟩
      · cases h : v.size <;> simp [nfsVolumeCreationProps, optOverride, h]
      · cases h : v.encryptionKey <;> simp [nfsVolumeCreationProps, optOverride, h]
  · intro props s rest hvol hsel
    unfold NfsInstance.construct
    rw [hsel]
    simp only [hvol]
    rfl

/-- C10 witness: with caller volume properties that override the size
and the key, the created volume is still encrypted, in the caller's
chosen size, with the caller's key, in the chosen subnet's availability
zone. -/
theorem created_volume_always_encrypted_witness :
    ((nfsVolumeCreationProps
        (some { size := some 100, encryptionKey := some 5, fileSystemType := none })
        "az-a").encrypted = some true
      ∧ (nfsVolumeCreationProps
          (some { size := some 100, encryptionKey := some 5, fileSystemType := none })
          "az-a").size = some ((Option.bind
            (some ({ size := some 100, encryptionKey := some 5, fileSystemType := none } :
              NfsInstanceNewVolumeProps)) (fun v => v.size)).getD 20)
      ∧ (nfsVolumeCreationProps
          (some { size := some 100, encryptionKey := some 5, fileSystemType := none })
          "az-a").encryptionKey = Option.bind
            (some ({ size := some 100, encryptionKey := some 5, fileSystemType := none } :
              NfsInstanceNewVolumeProps)) (fun v => v.encryptionKey)
      ∧ (nfsVolumeCreationProps
          (some { size := some 100, encryptionKey := some 5, fileSystemType := none })
          "az-a").availabilityZone = some "az-a")
    ∧ Except.map (fun m => m.volume)
        (NfsInstance.construct
          { vpc := { selectSubnets := fun _ =>
              [{ subnetId := "s-9", availabilityZone := "az-z" }] },
            vpcSubnets := none,
            hostname := "nfs", zoneName := "example.com",
            mount := { location := "/mnt/fs", permissions := MountPermissions.READWRITE },
            volume := some
              { volume := none,
                volumeProps := some
                  { size := some 100, encryptionKey := some 5, fileSystemType := none } } }).2
      = Except.ok (VolumeDesc.created
          (nfsVolumeCreationProps
            (some { size := some 100, encryptionKey := some 5, fileSystemType := none })
            "az-z")) :=
  ⟨created_volume_always_encrypted.1
     (some { size := some 100, encryptionKey := some 5, fileSystemType := none }) "az-a",
   created_volume_always_encrypted.2
     { vpc := { selectSubnets := fun _ =>
         [{ subnetId := "s-9", availabilityZone := "az-z" }] },
       vpcSubnets := none,
       hostname := "nfs", zoneName := "example.com",
       mount := { location := "/mnt/fs", permissions := MountPermissions.READWRITE },
       volume := some
         { volume := none,
           volumeProps := some
             { size := some 100, encryptionKey := some 5, fileSystemType := none } } }
     { subnetId := "s-9", availabilityZone := "az-z" } [] rfl rfl⟩
